import Mathlib

/-!
Verification development for the single-turn chat evaluation notebook
(`testing-examples/chat-single-turn/chat_evaluation_single_turn.ipynb`).

The notebook defines a five-example dialogue dataset, a `predict` function that
adapts a dataset row to the chain's input schema, a `format_evaluator_inputs`
function that adapts a (run, example) pair to the evaluator's input schema, and
wires them into the `evaluate` harness of the langsmith client library.

The harness itself (`evaluate`, `client.create_examples`, the
`labeled_score_string` judge) is library code outside this repository, so those
components are modelled from the specification (sections 4, 6 and 7 of the
design document); each such definition is marked `Modelled from the spec:` in
its doc comment.  Everything else is embedded directly from the notebook source.
-/

namespace ChatEval

/-- A JSON-like value, the universe of Python dict values appearing in the
notebook (example inputs/outputs, run outputs, chain payloads). -/
inductive Value where
  | str (s : String)
  | num (n : Int)
  | list (vs : List Value)
  | obj (fields : List (String × Value))

/-- A Python dict with string keys, modelled as an insertion-ordered
association list (Python dicts preserve insertion order). -/
abbrev Dict := List (String × Value)

/-- A LangChain chat message, the result type of `convert_openai_messages`. -/
inductive Msg where
  | human (content : String)
  | ai (content : String)
  | system (content : String)

/-- Modelled from the spec: the external library helper
`convert_openai_messages` applied to a single OpenAI-style message record
`\x7brole, content\x7d`, mapping role `user` to a human message and role
`assistant` to an AI message (spec section 3, ChatTurn: role in
\x7buser, assistant\x7d), failing on anything malformed. -/
def convertOneMessage (v : Value) : Except String Msg :=
  match v with
  | .obj fields =>
    match fields.lookup "role", fields.lookup "content" with
    | some (.str role), some (.str content) =>
      if role = "user" then .ok (.human content)
      else if role = "assistant" then .ok (.ai content)
      else if role = "system" then .ok (.system content)
      else .error ("unsupported message role: " ++ role)
    | _, _ => .error "message must have string role and content fields"
  | _ => .error "message must be a role/content record"

/-- Modelled from the spec: the external library helper
`convert_openai_messages`, converting an ordered sequence of
`\x7brole, content\x7d` records (spec section 6, Subject invocation schema);
fails on a non-sequence value or any malformed element. -/
def convert_openai_messages (v : Value) : Except String (List Msg) :=
  match v with
  | .list ms => ms.mapM convertOneMessage
  | _ => .error "chat_history must be a sequence of messages"

/-- The payload `predict` hands to the chain: the dict
`\x7b "input": inputs["question"], "chat_history": convert_openai_messages(inputs["chat_history"]) \x7d`. -/
structure ChainPayload where
  input : Value
  chat_history : List Msg

/-- The payload construction inside the notebook's `predict`: look up
`inputs["question"]` (a missing key raises, modelled as an error), look up
`inputs["chat_history"]` and convert it with `convert_openai_messages`.
Python evaluates the dict literal's values in order, so the `question` lookup
fails first. -/
def predict_payload (inputs : Dict) : Except String ChainPayload :=
  match inputs.lookup "question" with
  | none => .error "KeyError: question"
  | some q =>
    match inputs.lookup "chat_history" with
    | none => .error "KeyError: chat_history"
    | some ch =>
      match convert_openai_messages ch with
      | .error e => .error e
      | .ok ms => .ok { input := q, chat_history := ms }

/-- A langsmith `Run` as used by `format_evaluator_inputs`: only its `outputs`
dict is consulted. -/
structure Run where
  outputs : Dict

/-- A langsmith `Example` as used by `format_evaluator_inputs`: its `inputs`
and `outputs` dicts. -/
structure LSExample where
  inputs : Dict
  outputs : Dict

/-- The evaluator-input record built by `format_evaluator_inputs`. -/
structure EvaluatorInputs where
  input : Value
  prediction : Value
  reference : Value

/-- The notebook's `format_evaluator_inputs`: builds
`\x7b "input": example.inputs["question"], "prediction": next(iter(run.outputs.values())), "reference": example.outputs["expected"] \x7d`.
Python evaluates the dict literal's values in order: the `question` lookup
first (missing key raises KeyError), then `next(iter(...))` on the run's
outputs (empty dict raises StopIteration; otherwise the first value in
insertion order), then the `expected` lookup. -/
def format_evaluator_inputs (run : Run) (ex : LSExample) : Except String EvaluatorInputs :=
  match ex.inputs.lookup "question" with
  | none => .error "KeyError: question"
  | some q =>
    match run.outputs with
    | [] => .error "StopIteration"
    | (_, p) :: _ =>
      match ex.outputs.lookup "expected" with
      | none => .error "KeyError: expected"
      | some r => .ok { input := q, prediction := p, reference := r }

/-- A single conversational turn (spec section 3, ChatTurn). -/
structure ChatTurn where
  role : String
  content : String
deriving DecidableEq

/-- An example's structured input (spec section 3, Example.input): the
incoming question plus the ordered prior chat turns. -/
structure ExampleInput where
  question : String
  chat_history : List ChatTurn
deriving DecidableEq

/-- A labeled example (spec section 3, Example): input plus expected output. -/
structure SpecExample where
  input : ExampleInput
  expected_output : String
deriving DecidableEq

/-- Modelled from the spec: the ExampleStore component (spec section 4.1),
holding an ordered collection of examples, missing from the source because
dataset storage is delegated to the hosted langsmith client. -/
structure ExampleStore where
  items : List SpecExample

/-- Modelled from the spec: `add(example)` appends (spec section 4.1). -/
def ExampleStore.add (s : ExampleStore) (e : SpecExample) : ExampleStore :=
  ⟨s.items ++ [e]⟩

/-- Modelled from the spec: `all()` produces the full ordered sequence
(spec section 4.1). -/
def ExampleStore.all (s : ExampleStore) : List SpecExample :=
  s.items

/-- Modelled from the spec: an empty ExampleStore (spec section 4.1, an
in-memory list). -/
def ExampleStore.empty : ExampleStore :=
  ⟨[]⟩

/-- A Subject (spec section 4.2): maps an example input to an actual output
string; a provider error surfaces to the caller, modelled as `Except`. -/
abbrev Subject := ExampleInput → Except String String

/-- A Judge (spec section 4.3): maps (input, actual output, expected output)
to a numeric score plus rationale; the external scoring call can fail. -/
abbrev Judge := ExampleInput → String → String → Except String (Rat × String)

/-- A per-example result (spec section 3, EvaluationResult); a failed example
is explicitly marked `failed` with score undefined and the error message as
rationale (spec section 7 propagation policy). -/
structure EvaluationResult where
  example_id : Nat
  actual_output : Option String
  score : Option Rat
  rationale : String
  failed : Bool
deriving DecidableEq

/-- Modelled from the spec: one step of the harness (spec sections 4.4 and 7):
invoke the Subject, then the Judge, emitting an EvaluationResult; a failure of
either external call is caught and recorded as a failed result rather than
propagating. -/
def evalOne (s : Subject) (j : Judge) (id : Nat) (ex : SpecExample) : EvaluationResult :=
  match s ex.input with
  | .error e =>
    { example_id := id, actual_output := none, score := none, rationale := e, failed := true }
  | .ok actual =>
    match j ex.input actual ex.expected_output with
    | .error e =>
      { example_id := id, actual_output := some actual, score := none,
        rationale := e, failed := true }
    | .ok (sc, why) =>
      { example_id := id, actual_output := some actual, score := some sc,
        rationale := why, failed := false }

/-- Modelled from the spec: the harness loop over a suffix of the example
list, numbering results from `id` (spec section 4.4). -/
def runHarnessAux (s : Subject) (j : Judge) (id : Nat) : List SpecExample → List EvaluationResult
  | [] => []
  | ex :: rest => evalOne s j id ex :: runHarnessAux s j (id + 1) rest

/-- Modelled from the spec: the harness (spec section 4.4): for each example
in order, invoke Subject then Judge and emit an EvaluationResult. -/
def runHarness (s : Subject) (j : Judge) (exs : List SpecExample) : List EvaluationResult :=
  runHarnessAux s j 0 exs

/-- The aggregation error (spec section 7, error taxonomy item c). -/
inductive AggError where
  | AggregationFailure
deriving DecidableEq

/-- Modelled from the spec: aggregation (spec sections 4.4 and 7): the mean of
the defined per-example scores; an empty result set is an AggregationFailure
rather than a spurious numeric score. -/
def aggregate (rs : List EvaluationResult) : Except AggError Rat :=
  match rs with
  | [] => .error .AggregationFailure
  | _ =>
    let scores := (rs.map EvaluationResult.score).reduceOption
    .ok (scores.sum / (scores.length : Rat))

/-- A raw (pre-ingestion) example input is well formed when it carries the
required `chat_history` field (spec section 7, MalformedExample). -/
def wellFormedInput (d : Dict) : Bool :=
  (d.lookup "chat_history").isSome

/-- Modelled from the spec: ingestion-time validation (spec section 7):
walk the raw inputs, numbering them from `i`; the first input missing
`chat_history` is rejected with a message identifying its index. -/
def ingestFrom (i : Nat) : List Dict → Except (Nat × String) Unit
  | [] => .ok ()
  | d :: rest =>
    if wellFormedInput d then ingestFrom (i + 1) rest
    else .error (i, "example " ++ toString i ++ " is missing chat_history")

/-- Modelled from the spec: ingest a list of raw example inputs, rejecting the
first malformed one with its index (spec section 7). -/
def ingest (ds : List Dict) : Except (Nat × String) Unit :=
  ingestFrom 0 ds

/-- A Subject operating on raw example-input dicts, as `predict` does. -/
abbrev RawSubject := Dict → Except String String

/-- A Judge operating on a raw example-input dict and the actual output. -/
abbrev RawJudge := Dict → String → Except String (Rat × String)

/-- Modelled from the spec: one harness step over a raw example input. -/
def rawEvalOne (s : RawSubject) (j : RawJudge) (id : Nat) (d : Dict) : EvaluationResult :=
  match s d with
  | .error e =>
    { example_id := id, actual_output := none, score := none, rationale := e, failed := true }
  | .ok actual =>
    match j d actual with
    | .error e =>
      { example_id := id, actual_output := some actual, score := none,
        rationale := e, failed := true }
    | .ok (sc, why) =>
      { example_id := id, actual_output := some actual, score := some sc,
        rationale := why, failed := false }

/-- Modelled from the spec: the full run pipeline (spec section 7): ingest the
raw example inputs first; only when every input is well formed does the
harness make any Subject or Judge call. -/
def runPipeline (s : RawSubject) (j : RawJudge) (ds : List Dict) :
    Except (Nat × String) (List EvaluationResult) :=
  match ingest ds with
  | .error e => .error e
  | .ok () => .ok ((ds.enum).map (fun p => rawEvalOne s j p.1 p.2))

/-- The `normalize_by` factor configured on the notebook's
`correctness_evaluator` (`config=\x7b"criteria": "correctness", "normalize_by": 10\x7d`). -/
def normalize_by : Nat := 10

/-- Modelled from the spec: the score emitted by the configured
`labeled_score_string` evaluator (spec section 6, Judge invocation): the raw
judge score, an integer on the rubric scale from 0 to `normalize_by`, divided
by the `normalize_by` factor. The evaluator chain itself is library code
outside this repository. -/
def normalizedScore (raw : Nat) : Rat :=
  (raw : Rat) / (normalize_by : Rat)

/-- The first dataset example (Einstein relativity), embedded from the
notebook's `examples` list. -/
def exampleRelativity : SpecExample :=
  { input :=
      { question := "How does that apply?"
        chat_history :=
          [ { role := "user", content := "I’m trying tto uunderstand instein’s theory." }
          , { role := "assistant", content := "Which one? He\x27s known for several theories." }
          , { role := "user", content := "Thee one about time and spae." }
          , { role := "assistant", content := "Ah, you\x27re referring to the theory of relativity. There are two parts: special and general. Which one?" } ] }
    expected_output := "Special relativity, proposed by Einstein in 1905, deals with objects in uniform motion, especially those moving at the speed of light. It introduced the idea that time and space are relative and can change in relation to each other. For instance, time can appear to move slower for an object moving close to the speed of light." }

/-- The second dataset example (DNA/RNA), embedded from the notebook's
`examples` list. -/
def exampleDnaRna : SpecExample :=
  { input :=
      { question := "What\x27s the main difference?"
        chat_history :=
          [ { role := "user", content := "Can yyou contrast DNA and RNA for me?" }
          , { role := "assistant", content := "Certainly. DNA and RNA are both nucleic acids but have different roles, structures, and properties. Do you want specifics?" } ] }
    expected_output := "The main structural differences between DNA and RNA include: 1) DNA is double-stranded while RNA is single-stranded. 2) The sugar in the backbone of RNA is ribose, whereas in DNA it\x27s deoxyribose. 3) DNA uses the bases adenine (A), cytosine (C), guanine (G), and thymine (T); RNA uses adenine (A), cytosine (C), guanine (G), and uracil (U) instead of thymine." }

/-- The third dataset example (Boston Tea Party), embedded from the notebook's
`examples` list. -/
def exampleTeaParty : SpecExample :=
  { input :=
      { question := "what led them to such a draastic action?"
        chat_history :=
          [ { role := "user", content := "tell me about the Boston Tea Party." }
          , { role := "assistant", content := "The Boston Tea Party was a political protest by the American colonists against the British government in 1773. They were protesting the Tea Act, which allowed the British East India Company to sell tea directly to the colonies, bypassing colonial merchants." } ] }
    expected_output := "The colonists undertook the Boston Tea Party as a drastic action due to multiple reasons: 1) They believed the Tea Act was a violation of their rights as Englishmen, as they were being taxed without their consent. 2) The act gave the British East India Company a monopoly on tea sales, threatening local businesses. 3) The act was seen as another example of the British government\x27s increasing interference in colonial affairs. The protest was a way to show their strong opposition to British policies." }

/-- The fourth dataset example (Huntington\x27s disease), embedded from the
notebook's `examples` list. -/
def exampleHuntington : SpecExample :=
  { input :=
      { question := "thats a scary one. can it be avoideed?"
        chat_history :=
          [ { role := "user", content := "I\x27m learning bout genetic disorders." }
          , { role := "assistant", content := "Genetic disorders are diseases caused by abnormalities in an individual\x27s DNA. They can be inherited or result from mutations. One common one is Huntington\x27s disease." } ] }
    expected_output := "Huntington\x27s disease is a hereditary genetic disorder caused by a mutation in the HTT gene. If a person inherits the defective gene, they will eventually develop the disease. Currently, there\x27s no cure for Huntington\x27s, but its onset can be delayed with treatment. Genetic counseling and testing can help prospective parents understand the risks of passing the mutation to their offspring." }

/-- The fifth dataset example (star classification), embedded from the
notebook's `examples` list. -/
def exampleStars : SpecExample :=
  { input :=
      { question := "Which one?"
        chat_history :=
          [ { role := "user", content := "I\x27m confused aboutt stars. what even aaaare they?" }
          , { role := "assistant", content := "Stars are celestial bodies made mostly of hydrogen and helium. They generate light and heat through nuclear fusion in their cores." }
          , { role := "user", content := "there\x27\x27s a classification based on theirbrightness, right?" }
          , { role := "assistant", content := "Yes" } ] }
    expected_output := "Yes, stars are classified based on their brightness using a system called the Hertzsprung-Russell (H-R) diagram. In this diagram, stars are categorized into main-sequence stars, giants, supergiants, and white dwarfs, based on their luminosity and temperature. The Sun, for instance, is a main-sequence star." }

/-- The five example dialogues defined in the notebook, in their source
order. -/
def notebookExamples : List SpecExample :=
  [exampleRelativity, exampleDnaRna, exampleTeaParty, exampleHuntington, exampleStars]

/-- The Subject stub that returns the matching dataset example's expected
output verbatim: it recovers the example from the input's question (the five
questions are pairwise distinct). -/
def echoSubject : Subject := fun inp =>
  match notebookExamples.find? (fun e => decide (e.input.question = inp.question)) with
  | some e => .ok e.expected_output
  | none => .error "input not in the dataset"

/-- The Subject stub that always returns the empty string. -/
def emptySubject : Subject := fun _ =>
  .ok ""

/-- The Judge stub scoring exact string equality as 1.0 and anything else
as 0.0. -/
def exactMatchJudge : Judge := fun _ actual expected =>
  .ok (if actual = expected then (1 : Rat) else 0, "exact match")

/-- A Subject stub whose external call fails on exactly one dataset input
(the star-classification example), used to exercise the per-example failure
policy. -/
def failingSubject : Subject := fun inp =>
  if inp.question = "Which one?" then .error "provider timeout" else .ok "some answer"

/-- A Judge stub whose external scoring call fails on exactly one dataset
input (the star-classification example), used to exercise the per-example
failure policy on the Judge side. -/
def failingJudge : Judge := fun inp _ _ =>
  if inp.question = "Which one?" then .error "scoring service unavailable"
  else .ok (1, "ok")

/-- A well-formed raw example input (it carries `chat_history`). -/
def rawGoodInput : Dict :=
  [("question", Value.str "q"), ("chat_history", Value.list [])]

/-- A malformed raw example input: its `chat_history` field is missing. -/
def rawBadInput : Dict :=
  [("question", Value.str "q2")]

/-- The harness emits one result per example. -/
theorem runHarnessAux_length (s : Subject) (j : Judge) :
    ∀ (exs : List SpecExample) (id : Nat), (runHarnessAux s j id exs).length = exs.length := by
  intro exs
  induction exs with
  | nil => intro id; rfl
  | cons ex rest ih => intro id; simp [runHarnessAux, ih]

/-- The i-th harness result is produced from the i-th example alone. -/
theorem runHarnessAux_get (s : Subject) (j : Judge) :
    ∀ (exs : List SpecExample) (id i : Nat),
      (runHarnessAux s j id exs).get? i = (exs.get? i).map (evalOne s j (id + i)) := by
  intro exs
  induction exs with
  | nil => intro id i; simp [runHarnessAux]
  | cons ex rest ih =>
    intro id i
    cases i with
    | zero => simp [runHarnessAux]
    | succ m =>
      have harith : id + (m + 1) = (id + 1) + m := by omega
      simp only [runHarnessAux, List.get?_cons_succ, ih (id + 1) m, harith]

/-- Every branch of `evalOne` stamps the result with the given example id. -/
theorem evalOne_example_id (s : Subject) (j : Judge) (id : Nat) (ex : SpecExample) :
    (evalOne s j id ex).example_id = id := by
  unfold evalOne
  split
  · rfl
  · split
    · rfl
    · rfl

/-- When the Subject call fails, `evalOne` records a failed result carrying
the error message as rationale, with score undefined. -/
theorem evalOne_subject_error (s : Subject) (j : Judge) (id : Nat) (ex : SpecExample)
    (msg : String) (hf : s ex.input = .error msg) :
    evalOne s j id ex =
      { example_id := id, actual_output := none, score := none,
        rationale := msg, failed := true } := by
  unfold evalOne
  rw [hf]

/-- When the Subject call succeeds but the Judge call fails, `evalOne`
records a failed result carrying the error message as rationale, with score
undefined. -/
theorem evalOne_judge_error (s : Subject) (j : Judge) (id : Nat) (ex : SpecExample)
    (actual msg : String) (hs : s ex.input = .ok actual)
    (hj : j ex.input actual ex.expected_output = .error msg) :
    evalOne s j id ex =
      { example_id := id, actual_output := some actual, score := none,
        rationale := msg, failed := true } := by
  simp only [evalOne, hs, hj]

/-- Folding `add` over a list of examples appends them to the store's
contents in order. -/
theorem exampleStore_foldl_add_all (es : List SpecExample) :
    ∀ (st : ExampleStore), (es.foldl ExampleStore.add st).all = st.all ++ es := by
  induction es with
  | nil => intro st; simp
  | cons e rest ih =>
    intro st
    rw [List.foldl_cons, ih]
    simp [ExampleStore.add, ExampleStore.all]

/-- If some raw input in the list is malformed, validation starting at index
`n` rejects with the absolute index of a malformed input and a message naming
that index. -/
theorem ingestFrom_error_of_malformed :
    ∀ (ds : List Dict) (n i : Nat) (h : i < ds.length),
      wellFormedInput (ds.get ⟨i, h⟩) = false →
      ∃ k, ∃ (hk : k < ds.length),
        wellFormedInput (ds.get ⟨k, hk⟩) = false ∧
        ingestFrom n ds =
          .error (n + k, "example " ++ toString (n + k) ++ " is missing chat_history") := by
  intro ds
  induction ds with
  | nil => intro n i h; exact absurd h (by simp)
  | cons d rest ih =>
    intro n i h hm
    by_cases hd : wellFormedInput d = true
    · cases i with
      | zero => simp at hm; rw [hm] at hd; exact absurd hd (by simp)
      | succ m =>
        have hm2 : m < rest.length := Nat.lt_of_succ_lt_succ h
        obtain ⟨k, hk, hbad, herr⟩ := ih (n + 1) m hm2 (by simpa using hm)
        refine ⟨k + 1, Nat.succ_lt_succ hk, by simpa using hbad, ?_⟩
        have harith : n + (k + 1) = (n + 1) + k := by omega
        rw [harith]
        simpa [ingestFrom, hd] using herr
    · have hd2 : wellFormedInput d = false := by
        cases hdd : wellFormedInput d with
        | false => rfl
        | true => exact absurd hdd hd
      refine ⟨0, Nat.succ_pos _, by simpa using hd2, ?_⟩
      simp [ingestFrom, hd2]

/-- Claim C1: running the harness over N examples produces exactly N
EvaluationResults, one per example in order (the i-th result carries example
id i; failed examples are results too, not dropped), never more and never
fewer. -/
theorem harness_one_result_per_example (s : Subject) (j : Judge) (exs : List SpecExample) :
    (runHarness s j exs).length = exs.length ∧
    ∀ i, i < exs.length →
      ((runHarness s j exs).get? i).map EvaluationResult.example_id = some i := by
  constructor
  · exact runHarnessAux_length s j exs 0
  · intro i hi
    rw [runHarness, runHarnessAux_get s j exs 0 i]
    rw [List.get?_eq_get hi]
    simp [evalOne_example_id]

/-- Witness for C1 at a concrete run: five examples give five results and the
fourth result is stamped with example id 3. -/
theorem harness_one_result_per_example_witness :
    (runHarness echoSubject exactMatchJudge notebookExamples).length = notebookExamples.length ∧
    ((runHarness echoSubject exactMatchJudge notebookExamples).get? 3).map
        EvaluationResult.example_id = some 3 :=
  ⟨(harness_one_result_per_example echoSubject exactMatchJudge notebookExamples).1,
    (harness_one_result_per_example echoSubject exactMatchJudge notebookExamples).2 3
      (by decide)⟩

/-- Claim C2: adding a sequence of examples to an empty ExampleStore via
`add` makes `all()` return exactly that sequence in insertion order, with no
loss and no duplication. -/
theorem exampleStore_all_insertion_order (es : List SpecExample) :
    (es.foldl ExampleStore.add ExampleStore.empty).all = es := by
  rw [exampleStore_foldl_add_all]
  rfl

/-- Claim C3: with the Subject stub echoing each example's expected output
verbatim and the Judge stub scoring exact equality as 1.0 else 0.0, the
harness over the five notebook dialogues yields a mean score of exactly 1. -/
theorem harness_echo_subject_mean_one :
    aggregate (runHarness echoSubject exactMatchJudge notebookExamples) = .ok 1 := by
  simp [aggregate, runHarness, runHarnessAux, evalOne, echoSubject, exactMatchJudge,
    notebookExamples, exampleRelativity, exampleDnaRna, exampleTeaParty, exampleHuntington,
    exampleStars, List.find?]
  norm_num

/-- Claim C4: with the Subject stub that always returns the empty string and
the same exact-equality Judge, the harness over the five notebook dialogues
yields a mean score of exactly 0; every expected output in the dataset is
non-empty. -/
theorem harness_empty_subject_mean_zero :
    aggregate (runHarness emptySubject exactMatchJudge notebookExamples) = .ok 0 ∧
    notebookExamples.all (fun e => !e.expected_output.isEmpty) = true := by
  constructor
  · simp [aggregate, runHarness, runHarnessAux, evalOne, emptySubject, exactMatchJudge,
      notebookExamples, exampleRelativity, exampleDnaRna, exampleTeaParty, exampleHuntington,
      exampleStars]
  · set_option maxRecDepth 8000 in decide

/-- Claim C5: a raw example list containing an input without `chat_history`
is rejected at ingestion with a message naming a malformed index, and the
whole pipeline returns that rejection identically for every Subject and Judge
— no external call influences (or is needed for) the outcome. -/
theorem malformed_example_rejected_before_calls (ds : List Dict) (i : Nat)
    (h : i < ds.length) (hm : wellFormedInput (ds.get ⟨i, h⟩) = false) :
    ∃ k, ∃ (hk : k < ds.length),
      wellFormedInput (ds.get ⟨k, hk⟩) = false ∧
      ∀ (s : RawSubject) (j : RawJudge),
        runPipeline s j ds =
          .error (k, "example " ++ toString k ++ " is missing chat_history") := by
  obtain ⟨k, hk, hbad, herr⟩ := ingestFrom_error_of_malformed ds 0 i h hm
  rw [Nat.zero_add] at herr
  refine ⟨k, hk, hbad, ?_⟩
  intro s j
  simp [runPipeline, ingest, herr]

/-- Witness for C5: on [well-formed input, input missing chat_history] the
pipeline rejects index 1 before any Subject or Judge runs. -/
theorem malformed_example_rejected_witness :
    ∃ k, ∃ (hk : k < ([rawGoodInput, rawBadInput] : List Dict).length),
      wellFormedInput (([rawGoodInput, rawBadInput] : List Dict).get ⟨k, hk⟩) = false ∧
      ∀ (s : RawSubject) (j : RawJudge),
        runPipeline s j [rawGoodInput, rawBadInput] =
          .error (k, "example " ++ toString k ++ " is missing chat_history") :=
  malformed_example_rejected_before_calls [rawGoodInput, rawBadInput] 1 (by decide) (by rfl)

/-- Claim C6: aggregating a run over zero examples fails with
AggregationFailure; it never reports a numeric aggregate for an empty result
set. -/
theorem aggregate_empty_is_failure :
    aggregate ([] : List EvaluationResult) = .error AggError.AggregationFailure :=
  rfl

/-- Claim C7: when the Subject invocation or the Judge invocation fails on an
example, the harness catches the failure and records a failed
EvaluationResult for that example (score undefined, rationale the error
message), and still produces a result for every other example, each
determined by its own example alone — a per-example failure never aborts the
run. -/
theorem per_example_failure_recorded (s : Subject) (j : Judge) (exs : List SpecExample)
    (i : Nat) (msg : String) (h : i < exs.length)
    (hf : s (exs.get ⟨i, h⟩).input = .error msg ∨
          ∃ actual, s (exs.get ⟨i, h⟩).input = .ok actual ∧
            j (exs.get ⟨i, h⟩).input actual (exs.get ⟨i, h⟩).expected_output =
              .error msg) :
    (runHarness s j exs).length = exs.length ∧
    (∃ r, (runHarness s j exs).get? i = some r ∧
      r.failed = true ∧ r.score = none ∧ r.rationale = msg ∧ r.example_id = i) ∧
    ∀ k, k < exs.length →
      (runHarness s j exs).get? k = (exs.get? k).map (evalOne s j k) := by
  refine ⟨runHarnessAux_length s j exs 0, ?_, ?_⟩
  · rw [runHarness, runHarnessAux_get s j exs 0 i]
    rw [List.get?_eq_get h]
    simp only [Nat.zero_add, Option.map_some']
    cases hf with
    | inl hs =>
      rw [evalOne_subject_error s j i (exs.get ⟨i, h⟩) msg hs]
      exact ⟨_, rfl, rfl, rfl, rfl, rfl⟩
    | inr hj =>
      obtain ⟨actual, hs, hj⟩ := hj
      rw [evalOne_judge_error s j i (exs.get ⟨i, h⟩) actual msg hs hj]
      exact ⟨_, rfl, rfl, rfl, rfl, rfl⟩
  · intro k hk
    rw [runHarness, runHarnessAux_get s j exs 0 k, Nat.zero_add]

/-- Witness for C7: the failing Subject stub and the failing Judge stub each
fail only on the fifth notebook example; in both runs the harness records a
failed result at index 4 with the error message as rationale and no score. -/
theorem per_example_failure_recorded_witness :
    (∃ r, (runHarness failingSubject exactMatchJudge notebookExamples).get? 4 = some r ∧
      r.failed = true ∧ r.score = none ∧ r.rationale = "provider timeout" ∧
      r.example_id = 4) ∧
    (∃ r, (runHarness echoSubject failingJudge notebookExamples).get? 4 = some r ∧
      r.failed = true ∧ r.score = none ∧ r.rationale = "scoring service unavailable" ∧
      r.example_id = 4) :=
  ⟨(per_example_failure_recorded failingSubject exactMatchJudge notebookExamples 4
      "provider timeout" (by decide) (Or.inl (by rfl))).2.1,
    (per_example_failure_recorded echoSubject failingJudge notebookExamples 4
      "scoring service unavailable" (by decide)
      (Or.inr ⟨exampleStars.expected_output, by rfl, by rfl⟩)).2.1⟩

/-- Claim C8: the score emitted by the configured evaluator is the raw judge
score divided by the normalize_by factor (10), so for a raw rubric score of
at most normalize_by the emitted score lies in [0, 1]: never negative, never
above 1. -/
theorem normalized_score_in_unit_interval (raw : Nat) (h : raw ≤ normalize_by) :
    0 ≤ normalizedScore raw ∧ normalizedScore raw ≤ 1 := by
  have h10 : (raw : Rat) ≤ 10 := by exact_mod_cast h
  unfold normalizedScore normalize_by
  constructor
  · positivity
  · rw [div_le_one (by norm_num)]
    push_cast
    exact_mod_cast h10

/-- Witness for C8: a raw judge score of 7 normalizes into [0, 1]. -/
theorem normalized_score_witness :
    0 ≤ normalizedScore 7 ∧ normalizedScore 7 ≤ 1 :=
  normalized_score_in_unit_interval 7 (by decide)

/-- Claim C9: the payload `predict` builds for the chain depends only on the
`question` and `chat_history` fields of its input dict: two inputs agreeing
on those two fields produce identical payloads, so extra fields have no
influence. -/
theorem predict_payload_depends_only_on_question_and_history (i1 i2 : Dict)
    (hq : i1.lookup "question" = i2.lookup "question")
    (hh : i1.lookup "chat_history" = i2.lookup "chat_history") :
    predict_payload i1 = predict_payload i2 := by
  unfold predict_payload
  rw [hq, hh]

/-- Witness for C9: an extra `debug` field does not change the payload. -/
theorem predict_payload_ignores_extra_fields :
    predict_payload
        [("question", Value.str "What?"), ("chat_history", Value.list []),
         ("debug", Value.num 1)] =
      predict_payload [("question", Value.str "What?"), ("chat_history", Value.list [])] :=
  predict_payload_depends_only_on_question_and_history _ _ (by rfl) (by rfl)

/-- Claim C10: `format_evaluator_inputs` requires a run with non-empty
outputs: on an empty outputs mapping it never returns a result (and fails
with StopIteration whenever the example has a `question` field, since the
`input` entry is evaluated first), and whenever it does return a result the
prediction is the first value of the outputs mapping in iteration order. -/
theorem format_evaluator_inputs_needs_outputs (run : Run) (ex : LSExample) :
    (run.outputs = [] → ∀ r, format_evaluator_inputs run ex ≠ Except.ok r) ∧
    (run.outputs = [] → (ex.inputs.lookup "question").isSome = true →
      format_evaluator_inputs run ex = Except.error "StopIteration") ∧
    (∀ kv rest, run.outputs = kv :: rest →
      ∀ r, format_evaluator_inputs run ex = Except.ok r → r.prediction = kv.2) := by
  refine ⟨?_, ?_, ?_⟩
  · intro hout r
    unfold format_evaluator_inputs
    cases hq : ex.inputs.lookup "question" with
    | none => simp
    | some q => rw [hout]; simp
  · intro hout hq
    unfold format_evaluator_inputs
    cases hq2 : ex.inputs.lookup "question" with
    | none => rw [hq2] at hq; simp at hq
    | some q => rw [hout]
  · intro kv rest hout r hok
    unfold format_evaluator_inputs at hok
    cases hq : ex.inputs.lookup "question" with
    | none => rw [hq] at hok; simp at hok
    | some q =>
      rw [hq, hout] at hok
      cases hr : ex.outputs.lookup "expected" with
      | none => rw [hr] at hok; simp at hok
      | some rref =>
        rw [hr] at hok
        cases hok
        rfl

/-- Witness for C10: a run with empty outputs makes the formatter fail with
StopIteration on an example that has a question. -/
theorem format_evaluator_inputs_needs_outputs_witness :
    format_evaluator_inputs (Run.mk [])
        (LSExample.mk [("question", Value.str "q")] [("expected", Value.str "e")]) =
      Except.error "StopIteration" :=
  (format_evaluator_inputs_needs_outputs (Run.mk [])
    (LSExample.mk [("question", Value.str "q")] [("expected", Value.str "e")])).2.1
    rfl (by rfl)

end ChatEval
